import Mathlib

/-!
# Verification of the PrisML training pipeline (`scripts/train.py`)

A shallow embedding of the Python training script: JSON payloads become an
inductive `Json` type, numeric values are modelled as rationals, the
scikit-learn / skl2onnx library calls that the script merely forwards to are
abstracted into an `Oracle` of deterministic functions parameterised by the
resolved random seed, and each Python function of the script becomes a Lean
function with the same name, control flow and error behaviour.  Python
exceptions are modelled by an explicit `PyError` type and `Except`.
-/

namespace PrisML

attribute [local semireducible] Rat.add Rat.sub Rat.mul Rat.inv

/-- JSON values as produced by `json.load`.  Numbers are modelled as
rationals (the claims under study never depend on float rounding). -/
inductive Json where
  | null : Json
  | bool (b : Bool) : Json
  | num (q : Rat) : Json
  | str (s : String) : Json
  | arr (xs : List Json) : Json
  | obj (fields : List (String × Json)) : Json

/-- Python exceptions raised by the script or the libraries it calls,
abstracted to structured data (the script only ever formats them into a
diagnostic message at the driver boundary). -/
inductive PyError where
  /-- `json.load` raised: the input file is not parseable JSON. -/
  | jsonDecodeError
  /-- `TypeError`, e.g. subscripting a non-dict or `len()` of an unsized value. -/
  | typeError (msg : String)
  /-- `KeyError` from a missing dict key. -/
  | keyError (key : String)
  /-- `AttributeError`, e.g. `.get` on a non-dict. -/
  | attributeError (msg : String)
  /-- `IndexError`, e.g. `X.shape[1]` on a one-dimensional array. -/
  | indexError (msg : String)
  /-- `np.array` rejected a ragged nested list (inhomogeneous shape). -/
  | raggedArrayError
  /-- `np.array(…, dtype=np.float32)` could not convert the payload. -/
  | arrayConversionError
  /-- `train_test_split` found `len(X) ≠ len(y)`. -/
  | inconsistentSamplesError (nx ny : Nat)
  /-- `create_model` raised `ValueError. Unsupported algorithm`,
  carrying the requested identifier and the valid choices. -/
  | unsupportedAlgorithm (algorithm : String) (choices : List String)
  /-- the quality gate raised `ValueError. Training failed`, carrying the
  gated metric name, its value and the threshold. -/
  | qualityGate (metricName : String) (value threshold : Rat)
deriving DecidableEq, Repr

/-- The spec's `MalformedInputError` taxonomy class: input file missing,
unparseable, or structurally inconsistent. -/
def PyError.isMalformedInput : PyError → Bool
  | .jsonDecodeError => true
  | .typeError _ => true
  | .keyError _ => true
  | .attributeError _ => true
  | .indexError _ => true
  | .raggedArrayError => true
  | .arrayConversionError => true
  | .inconsistentSamplesError _ _ => true
  | .unsupportedAlgorithm _ _ => false
  | .qualityGate _ _ _ => false

/-- Rendering of the `create_model` error message, mirroring the f-string
`f"Unsupported algorithm: {algorithm}. Choose from {list(models.keys())}"`
(the Python `repr` of a list of strings). -/
def pyStrListRepr (xs : List String) : String :=
  "[" ++ String.intercalate ", " (xs.map (fun s => "\x27" ++ s ++ "\x27")) ++ "]"

/-- The message of the `Unsupported algorithm` error. -/
def unsupportedAlgorithmMessage (algorithm : String) (choices : List String) : String :=
  "Unsupported algorithm: " ++ algorithm ++ ". Choose from " ++ pyStrListRepr choices

/-- First-match association-list lookup, the semantics of `models[algorithm]`
on a Python dict built from distinct literal keys. -/
def lookupStr {α : Type} : List (String × α) → String → Option α
  | [], _ => none
  | (k, v) :: rest, key => if k == key then some v else lookupStr rest key

/-- Python `dict.get(key)`: `some` value at the key, else `none`. -/
def dictGet (d : List (String × Json)) (key : String) : Option Json :=
  lookupStr d key

/-- Python `dict.get(key, default)`. -/
def dictGetD (d : List (String × Json)) (key : String) (default : Json) : Json :=
  (dictGet d key).getD default

/-- Python `d[key] = v` on a dict (whose keys are unique, as `json.load`
and the script's literals guarantee): overwrite in place if the key exists,
keeping its position, else append a new entry at the end. -/
def dictSet : List (String × Json) → String → Json → List (String × Json)
  | [], key, v => [(key, v)]
  | p :: rest, key, v =>
    if p.1 == key then (key, v) :: rest else p :: dictSet rest key v

/-- Python `x == "s"` where `x` is an arbitrary JSON-decoded value:
true exactly when `x` is the string `s`. -/
def jsonIsStr (j : Json) (s : String) : Bool :=
  match j with
  | .str t => t == s
  | _ => false

/-- Python `len(x)` on a JSON-decoded value: lists, strings and dicts are
sized; everything else raises `TypeError`. -/
def pyLen (j : Json) : Except PyError Nat :=
  match j with
  | .arr xs => .ok xs.length
  | .str s => .ok s.length
  | .obj fields => .ok fields.length
  | _ => .error (.typeError "object of this type has no len")

/-- The scikit-learn estimators the script can instantiate, with the
hyperparameters hardcoded in `create_model`. -/
inductive SkModel where
  | randomForestClassifier (nEstimators : Nat) (randomState : Option Nat) (maxDepth : Option Nat)
  | randomForestRegressor (nEstimators : Nat) (randomState : Option Nat) (maxDepth : Option Nat)
  | logisticRegression (randomState : Option Nat) (maxIter : Nat)
  | decisionTreeClassifier (randomState : Option Nat) (maxDepth : Option Nat)
deriving DecidableEq, Repr

/-- The `random_state` hyperparameter of an estimator. -/
def SkModel.randomState : SkModel → Option Nat
  | .randomForestClassifier _ rs _ => rs
  | .randomForestRegressor _ rs _ => rs
  | .logisticRegression rs _ => rs
  | .decisionTreeClassifier rs _ => rs

/-- `create_model(algorithm, task_type)` from `scripts/train.py`: build the
task-type's model table (note the `task_type == 'regression'` string test —
anything else falls into the classification branch — and the
`DecisionTreeClassifier` entry in the regression table), then look the
requested algorithm up, raising `ValueError` with the valid keys if absent. -/
def create_model (algorithm : String) (taskType : Json) : Except PyError SkModel :=
  let models : List (String × SkModel) :=
    if jsonIsStr taskType "regression" then
      [("RandomForest", .randomForestRegressor 100 (some 42) (some 10)),
       ("DecisionTree", .decisionTreeClassifier (some 42) (some 10))]
    else
      [("RandomForest", .randomForestClassifier 100 (some 42) (some 10)),
       ("LogisticRegression", .logisticRegression (some 42) 1000),
       ("DecisionTree", .decisionTreeClassifier (some 42) (some 10))]
  match lookupStr models algorithm with
  | some m => .ok m
  | none => .error (.unsupportedAlgorithm algorithm (models.map Prod.fst))

/-- The supported algorithm identifiers for a task type (the keys of the
table `create_model` builds). -/
def supportedAlgorithms (taskType : Json) : List String :=
  if jsonIsStr taskType "regression" then
    ["RandomForest", "DecisionTree"]
  else
    ["RandomForest", "LogisticRegression", "DecisionTree"]

theorem create_model_isOk_iff (algorithm : String) (taskType : Json) :
    (∃ m, create_model algorithm taskType = .ok m) ↔
      algorithm ∈ supportedAlgorithms taskType := by
  unfold create_model supportedAlgorithms
  by_cases hr : jsonIsStr taskType "regression" = true <;>
    simp only [hr, if_true, if_false, Bool.false_eq_true, lookupStr] <;>
    cases hb1 : ("RandomForest" : String) == algorithm <;>
    cases hb2 : ("LogisticRegression" : String) == algorithm <;>
    cases hb3 : ("DecisionTree" : String) == algorithm <;>
    simp_all [beq_eq_false_iff_ne] <;>
    first
      | exact ⟨fun e => hb1 e.symm, fun e => hb3 e.symm⟩
      | exact ⟨fun e => hb1 e.symm, fun e => hb2 e.symm, fun e => hb3 e.symm⟩

theorem create_model_notMem_error (algorithm : String) (taskType : Json)
    (h : algorithm ∉ supportedAlgorithms taskType) :
    create_model algorithm taskType =
      .error (.unsupportedAlgorithm algorithm (supportedAlgorithms taskType)) := by
  unfold supportedAlgorithms at h
  unfold create_model supportedAlgorithms
  by_cases hr : jsonIsStr taskType "regression" = true <;>
    simp only [hr, if_true, if_false, Bool.false_eq_true, lookupStr] at h ⊢ <;>
    cases hb1 : ("RandomForest" : String) == algorithm <;>
    cases hb2 : ("LogisticRegression" : String) == algorithm <;>
    cases hb3 : ("DecisionTree" : String) == algorithm <;>
    simp_all [beq_eq_false_iff_ne]

theorem create_model_randomState (algorithm : String) (taskType : Json) (m : SkModel)
    (h : create_model algorithm taskType = .ok m) : m.randomState = some 42 := by
  unfold create_model at h
  by_cases hr : jsonIsStr taskType "regression" = true <;>
    simp only [hr, if_true, if_false, Bool.false_eq_true, lookupStr] at h <;>
    cases hb1 : ("RandomForest" : String) == algorithm <;>
    cases hb2 : ("LogisticRegression" : String) == algorithm <;>
    cases hb3 : ("DecisionTree" : String) == algorithm <;>
    simp_all [beq_eq_false_iff_ne] <;>
    simp [← h, SkModel.randomState]

/-- Held-out evaluation metrics, exactly as `sklearn.metrics` defines them
on rational inputs.  `accuracy_score` is the fraction of exact label
matches. -/
def accuracy_score (yTrue yPred : List Rat) : Rat :=
  ((((yTrue.zip yPred).filter (fun p => p.1 == p.2)).length : Nat) : Rat) /
    ((yTrue.length : Nat) : Rat)

/-- `sklearn.metrics.mean_squared_error`: mean of squared residuals. -/
def mean_squared_error (yTrue yPred : List Rat) : Rat :=
  (((yTrue.zip yPred).map (fun p => (p.1 - p.2) * (p.1 - p.2))).foldl (· + ·) 0) /
    ((yTrue.length : Nat) : Rat)

/-- `sklearn.metrics.r2_score`: `1 - ssRes / ssTot`, with the library's
degenerate-case convention when the true values are constant (`ssTot = 0`):
`1` for a perfect fit, `0` otherwise. -/
def r2_score (yTrue yPred : List Rat) : Rat :=
  let mean := (yTrue.foldl (· + ·) 0) / ((yTrue.length : Nat) : Rat)
  let ssRes := ((yTrue.zip yPred).map (fun p => (p.1 - p.2) * (p.1 - p.2))).foldl (· + ·) 0
  let ssTot := (yTrue.map (fun t => (t - mean) * (t - mean))).foldl (· + ·) 0
  if ssTot == 0 then (if ssRes == 0 then 1 else 0) else 1 - ssRes / ssTot

/-- The four arrays returned by `train_test_split`. -/
structure SplitRes where
  XTrain : List (List Rat)
  XTest : List (List Rat)
  yTrain : List Rat
  yTest : List Rat
deriving DecidableEq, Repr

/-- The deterministic semantics of the external library calls the script
forwards to.  Each operation that scikit-learn seeds through `random_state`
receives the resolved seed as an explicit `Nat` argument; given equal
arguments the result is equal (they are Lean functions).  `convert` stands
for `skl2onnx.convert_sklearn` and returns the opaque serialized graph body
(its declared input shape is built by the script itself, see
`export_to_onnx`). -/
structure Oracle where
  split : List (List Rat) → List Rat → Rat → Nat → SplitRes
  predict : SkModel → List (List Rat) → List Rat → Nat → List (List Rat) → List Rat
  convert : SkModel → List (List Rat) → List Rat → Nat

/-- How scikit-learn resolves a `random_state` argument: an explicit seed is
used as given; `None` falls back to the ambient global RNG state, modelled
here as a `Nat` threaded through the run. -/
def resolveSeed (randomState : Option Nat) (ambientRng : Nat) : Nat :=
  randomState.getD ambientRng

/-- A fitted estimator: with a fixed seed, scikit-learn's `fit` is a
deterministic function of the estimator configuration and the training
data, so the fitted model is represented by that triple. -/
def FittedModel : Type := SkModel × List (List Rat) × List Rat

/-- Observable steps of a pipeline run, in execution order. -/
inductive Event where
  | splitEv
  | createModelEv
  | fitEv
  | predictEv
  | computeMetricsEv
  | gateCheckEv
  | convertEv
  | writeModelEv
  | writeMetadataEv
deriving DecidableEq, Repr

/-- `true` iff scanning the trace from the start reaches a
`computeMetricsEv` (or the end) before any `gateCheckEv`: no quality-gate
check happens before the metrics record has been computed. -/
def gateOnlyAfterMetrics : List Event → Bool
  | [] => true
  | Event.gateCheckEv :: _ => false
  | Event.computeMetricsEv :: _ => true
  | _ :: rest => gateOnlyAfterMetrics rest

/-- What `train_and_evaluate` produced: the trace of performed steps, the
train/test partition and the metrics record once they exist, and the
returned value or the raised exception. -/
structure TrainResult where
  events : List Event
  partition : Option SplitRes
  metrics : Option (List (String × Rat))
  result : Except PyError (FittedModel × List (String × Rat))

/-- The trace of a `train_and_evaluate` call that reached the quality gate. -/
def fullTrainTrace : List Event :=
  [Event.splitEv, Event.createModelEv, Event.fitEv, Event.predictEv,
   Event.computeMetricsEv, Event.gateCheckEv]

/-- `train_and_evaluate(X, y, algorithm, task_type, test_split, min_accuracy)`
from `scripts/train.py`:
1. `train_test_split(X, y, test_size=test_split, random_state=42)` — which
   first raises `ValueError` when `len(X) ≠ len(y)`;
2. `create_model(algorithm, task_type)` — note this runs *after* the split;
3. `model.fit(X_train, y_train)` and `model.predict(X_test)`;
4. the metrics record: `{mse, r2}` when `task_type == 'regression'`,
   `{accuracy}` otherwise;
5. the quality gate: raise `ValueError` when `r2 < min_accuracy`
   (regression) or `accuracy < min_accuracy` (classification). -/
def train_and_evaluate (o : Oracle) (ambientRng : Nat)
    (X : List (List Rat)) (y : List Rat) (algorithm : String) (taskType : Json)
    (testSplit : Rat) (minAccuracy : Rat) : TrainResult :=
  if X.length = y.length then
    let part := o.split X y testSplit (resolveSeed (some 42) ambientRng)
    match create_model algorithm taskType with
    | .error e => ⟨[Event.splitEv], some part, none, .error e⟩
    | .ok spec =>
      let fitted : FittedModel := (spec, part.XTrain, part.yTrain)
      let yPred := o.predict spec part.XTrain part.yTrain
        (resolveSeed spec.randomState ambientRng) part.XTest
      if jsonIsStr taskType "regression" then
        let mse := mean_squared_error part.yTest yPred
        let r2 := r2_score part.yTest yPred
        let metrics := [("mse", mse), ("r2", r2)]
        ⟨fullTrainTrace, some part, some metrics,
          if r2 < minAccuracy then
            .error (.qualityGate "R2" r2 minAccuracy)
          else
            .ok (fitted, metrics)⟩
      else
        let acc := accuracy_score part.yTest yPred
        let metrics := [("accuracy", acc)]
        ⟨fullTrainTrace, some part, some metrics,
          if acc < minAccuracy then
            .error (.qualityGate "Accuracy" acc minAccuracy)
          else
            .ok (fitted, metrics)⟩
  else
    ⟨[], none, none, .error (.inconsistentSamplesError X.length y.length)⟩

/-- The train/test partition a run uses (observation helper): the split
that `train_and_evaluate` performs, with the fixed seed 42 it hardcodes. -/
def partitionOf (o : Oracle) (X : List (List Rat)) (y : List Rat) (testSplit : Rat) : SplitRes :=
  o.split X y testSplit 42

/-- The held-out predictions of the fitted model (observation helper). -/
def predictionsOf (o : Oracle) (X : List (List Rat)) (y : List Rat)
    (m : SkModel) (testSplit : Rat) : List Rat :=
  let part := partitionOf o X y testSplit
  o.predict m part.XTrain part.yTrain 42 part.XTest

/-- The metrics record `train_and_evaluate` computes (observation helper). -/
def metricsRecordOf (o : Oracle) (X : List (List Rat)) (y : List Rat)
    (m : SkModel) (taskType : Json) (testSplit : Rat) : List (String × Rat) :=
  let part := partitionOf o X y testSplit
  let yPred := predictionsOf o X y m testSplit
  if jsonIsStr taskType "regression" then
    [("mse", mean_squared_error part.yTest yPred), ("r2", r2_score part.yTest yPred)]
  else
    [("accuracy", accuracy_score part.yTest yPred)]

/-- The metric value the quality gate compares against the threshold:
R² for regression, accuracy otherwise (MSE is never compared). -/
def heldOutMetricOf (o : Oracle) (X : List (List Rat)) (y : List Rat)
    (m : SkModel) (taskType : Json) (testSplit : Rat) : Rat :=
  let part := partitionOf o X y testSplit
  let yPred := predictionsOf o X y m testSplit
  if jsonIsStr taskType "regression" then r2_score part.yTest yPred
  else accuracy_score part.yTest yPred

/-- The name under which the gate reports the failed metric. -/
def gateMetricName (taskType : Json) : String :=
  if jsonIsStr taskType "regression" then "R2" else "Accuracy"

theorem train_and_evaluate_eq (o : Oracle) (ambientRng : Nat)
    (X : List (List Rat)) (y : List Rat) (algorithm : String) (taskType : Json)
    (testSplit minAccuracy : Rat) (m : SkModel)
    (hlen : X.length = y.length) (hm : create_model algorithm taskType = .ok m) :
    train_and_evaluate o ambientRng X y algorithm taskType testSplit minAccuracy =
      ⟨fullTrainTrace, some (partitionOf o X y testSplit),
       some (metricsRecordOf o X y m taskType testSplit),
       if heldOutMetricOf o X y m taskType testSplit < minAccuracy then
         .error (.qualityGate (gateMetricName taskType)
           (heldOutMetricOf o X y m taskType testSplit) minAccuracy)
       else
         .ok ((m, (partitionOf o X y testSplit).XTrain, (partitionOf o X y testSplit).yTrain),
              metricsRecordOf o X y m taskType testSplit)⟩ := by
  have hrs : m.randomState = some 42 := create_model_randomState algorithm taskType m hm
  simp only [train_and_evaluate, partitionOf, predictionsOf, metricsRecordOf, heldOutMetricOf,
    gateMetricName, resolveSeed, Option.getD_some, hlen, if_true, eq_self_iff_true, hm, hrs]
  by_cases hreg : jsonIsStr taskType "regression" = true <;>
    simp only [hreg, if_true, if_false, Bool.false_eq_true]

theorem train_and_evaluate_mismatch (o : Oracle) (ambientRng : Nat)
    (X : List (List Rat)) (y : List Rat) (algorithm : String) (taskType : Json)
    (testSplit minAccuracy : Rat) (hlen : X.length ≠ y.length) :
    train_and_evaluate o ambientRng X y algorithm taskType testSplit minAccuracy =
      ⟨[], none, none, .error (.inconsistentSamplesError X.length y.length)⟩ := by
  unfold train_and_evaluate
  rw [if_neg hlen]

theorem train_and_evaluate_unsupported (o : Oracle) (ambientRng : Nat)
    (X : List (List Rat)) (y : List Rat) (algorithm : String) (taskType : Json)
    (testSplit minAccuracy : Rat) (e : PyError)
    (hlen : X.length = y.length) (hm : create_model algorithm taskType = .error e) :
    train_and_evaluate o ambientRng X y algorithm taskType testSplit minAccuracy =
      ⟨[Event.splitEv], some (partitionOf o X y testSplit), none, .error e⟩ := by
  unfold train_and_evaluate partitionOf
  rw [if_pos hlen, hm]
  rfl

theorem train_and_evaluate_ambient_free (o : Oracle) (amb1 amb2 : Nat)
    (X : List (List Rat)) (y : List Rat) (algorithm : String) (taskType : Json)
    (testSplit minAccuracy : Rat) :
    train_and_evaluate o amb1 X y algorithm taskType testSplit minAccuracy =
      train_and_evaluate o amb2 X y algorithm taskType testSplit minAccuracy := by
  by_cases hlen : X.length = y.length
  · cases hm : create_model algorithm taskType with
    | ok m =>
      rw [train_and_evaluate_eq o amb1 X y algorithm taskType testSplit minAccuracy m hlen hm,
          train_and_evaluate_eq o amb2 X y algorithm taskType testSplit minAccuracy m hlen hm]
    | error e =>
      rw [train_and_evaluate_unsupported o amb1 X y algorithm taskType testSplit minAccuracy e hlen hm,
          train_and_evaluate_unsupported o amb2 X y algorithm taskType testSplit minAccuracy e hlen hm]
  · rw [train_and_evaluate_mismatch o amb1 X y algorithm taskType testSplit minAccuracy hlen,
        train_and_evaluate_mismatch o amb2 X y algorithm taskType testSplit minAccuracy hlen]

/-- A NumPy array built from a JSON payload: one- or two-dimensional. -/
inductive NpMatrix where
  | mat1 (xs : List Rat)
  | mat2 (rows : List (List Rat))
deriving DecidableEq, Repr

/-- A JSON number, if the value is one. -/
def asNum : Json → Option Rat
  | .num q => some q
  | _ => none

/-- A JSON array of numbers, as a list of rationals. -/
def asNumList : Json → Option (List Rat)
  | .arr xs => xs.mapM asNum
  | _ => none

/-- `true` iff all rows have the length of the first row. -/
def uniformRows : List (List Rat) → Bool
  | [] => true
  | r :: rs => rs.all (fun s => s.length == r.length)

/-- Modelled library behavior of `np.array(payload, dtype=np.float32)` on
the JSON payload shapes relevant here: a flat list of numbers gives a
one-dimensional array, a nested list of equal-length number rows gives a
two-dimensional array, a nested list with unequal row lengths raises the
inhomogeneous-shape `ValueError`, and any other payload is modelled as a
conversion error. -/
def npArrayF32 (j : Json) : Except PyError NpMatrix :=
  match j with
  | .arr xs =>
    match xs.mapM asNum with
    | some vals => .ok (.mat1 vals)
    | none =>
      match xs.mapM asNumList with
      | some rows =>
        if uniformRows rows then .ok (.mat2 rows) else .error .raggedArrayError
      | none => .error .arrayConversionError
  | _ => .error .arrayConversionError

/-- Modelled library behavior of `np.array(payload)` for the label vector:
a flat list of numbers. -/
def npArray1 (j : Json) : Except PyError (List Rat) :=
  match j with
  | .arr xs =>
    match xs.mapM asNum with
    | some vals => .ok vals
    | none => .error .arrayConversionError
  | _ => .error .arrayConversionError

/-- Python `data[key]` on a JSON-decoded value: dict lookup with `KeyError`
on a missing key, `TypeError` when the value is not a dict. -/
def pyGetItem (data : Json) (key : String) : Except PyError Json :=
  match data with
  | .obj fields =>
    match dictGet fields key with
    | some v => .ok v
    | none => .error (.keyError key)
  | _ => .error (.typeError "value is not subscriptable by string")

/-- `load_training_data(input_path)` from `scripts/train.py`, with the file
contents already JSON-decoded (`none` models an unparseable file, on which
`json.load` raises).  Steps, in source order:
`X = np.array(data['features'], dtype=np.float32)`,
`y = np.array(data['labels'])`, `metadata = data.get('metadata', {})`, then
the summary print, whose `X.shape[1]` raises `IndexError` when `X` is not
two-dimensional and whose `metadata.get` raises `AttributeError` when the
metadata value is not a dict.  No length comparison between `features` and
`labels` ever happens here. -/
def load_training_data (fileJson : Option Json) :
    Except PyError (List (List Rat) × List Rat × List (String × Json)) :=
  match fileJson with
  | none => .error .jsonDecodeError
  | some data => do
    let featuresJson ← pyGetItem data "features"
    let Xm ← npArrayF32 featuresJson
    let labelsJson ← pyGetItem data "labels"
    let y ← npArray1 labelsJson
    let metadataJson :=
      match data with
      | .obj fields => dictGetD fields "metadata" (.obj [])
      | _ => .obj []
    let X ← match Xm with
      | .mat2 rows => Except.ok rows
      | .mat1 _ => Except.error (.indexError "tuple index out of range")
    let metadata ← match metadataJson with
      | .obj fields => Except.ok fields
      | _ => Except.error (.attributeError "value has no attribute get")
    .ok (X, y, metadata)

/-- `X.shape[1]` of a successfully loaded two-dimensional feature matrix:
the common row length. -/
def nCols (rows : List (List Rat)) : Nat :=
  match rows with
  | r :: _ => r.length
  | [] => 0

/-- The contents of a file written by the script. -/
inductive FileData where
  | onnxFile (inputName : String) (batchDim : Option Nat) (inputWidth : Nat)
      (zipmapDisabled : Bool) (payload : Nat)
  | jsonFile (d : List (String × Json))

/-- The serialized computation graph `convert_sklearn` produces, as far as
the script determines it: the declared input tensor (name, batch dimension,
width) comes from the `initial_types` the script builds, the zipmap option
from the script's `onnx_options`, and the graph body from the library. -/
structure OnnxArtifact where
  inputName : String
  batchDim : Option Nat
  inputWidth : Nat
  zipmapDisabled : Bool
  payload : Nat
deriving DecidableEq, Repr

/-- The replacement string `'.metadata.json'` as characters. -/
def metadataSuffixChars : List Char :=
  String.toList ".metadata.json"

/-- Python `output_path.replace('.onnx', '.metadata.json')`: every
occurrence of the substring `'.onnx'` is replaced, scanning left to right. -/
def replOnnxChars : List Char → List Char
  | '.' :: 'o' :: 'n' :: 'n' :: 'x' :: rest => metadataSuffixChars ++ replOnnxChars rest
  | c :: rest => c :: replOnnxChars rest
  | [] => []

/-- The path the script writes the sidecar metadata to:
`output_path.replace('.onnx', '.metadata.json')`. -/
def metadataPathOf (outputPath : String) : String :=
  String.mk (replOnnxChars outputPath.toList)

/-- `true` iff `pat` occurs as a contiguous substring of `cs`. -/
def containsSub (pat : List Char) : List Char → Bool
  | [] => pat.isEmpty
  | c :: rest => pat.isPrefixOf (c :: rest) || containsSub pat rest

/-- `export_to_onnx(model, output_path, feature_names, metadata, task_type)`
from `scripts/train.py`: `num_features = len(feature_names)`; the ONNX
input declaration `[('input', FloatTensorType([None, num_features]))]`;
zipmap disabled exactly when `task_type == 'classification'`;
`convert_sklearn`; the binary model written at `output_path`; the sidecar
metadata written at `output_path.replace('.onnx', '.metadata.json')`.
Returns the emitted events, the chronological write log, and the artifact. -/
def export_to_onnx (o : Oracle) (model : FittedModel) (outputPath : String)
    (featureNames : Json) (metadata : List (String × Json)) (taskType : Json) :
    Except PyError (List Event × List (String × FileData) × OnnxArtifact) :=
  match pyLen featureNames with
  | .error e => .error e
  | .ok numFeatures =>
    let zipmapDisabled := jsonIsStr taskType "classification"
    let artifact : OnnxArtifact :=
      { inputName := "input", batchDim := none, inputWidth := numFeatures,
        zipmapDisabled := zipmapDisabled,
        payload := o.convert model.1 model.2.1 model.2.2 }
    let metadataPath := metadataPathOf outputPath
    .ok ([Event.convertEv, Event.writeModelEv, Event.writeMetadataEv],
         [(outputPath, .onnxFile artifact.inputName artifact.batchDim artifact.inputWidth
             artifact.zipmapDisabled artifact.payload),
          (metadataPath, .jsonFile metadata)],
         artifact)

/-- `metadata.get('task_type', 'classification')` in `main`. -/
def taskTypeOf (metadata : List (String × Json)) : Json :=
  dictGetD metadata "task_type" (.str "classification")

/-- The generated fallback feature names `[f'f{i}' for i in range(n)]`. -/
def defaultFeatureNames (n : Nat) : List Json :=
  (List.range n).map (fun i => .str ("f" ++ toString i))

/-- `metadata.get('feature_names', [f'f{i}' for i in range(X.shape[1])])`
in `main`. -/
def featureNamesOf (metadata : List (String × Json)) (numCols : Nat) : Json :=
  dictGetD metadata "feature_names" (.arr (defaultFeatureNames numCols))

/-- The metrics record as a JSON object, as `json.dump` serializes it. -/
def metricsToJson (metrics : List (String × Rat)) : Json :=
  .obj (metrics.map (fun p => (p.1, .num p.2)))

/-- The export-time metadata
`{**metadata, 'algorithm': args.algorithm, 'metrics': metrics, 'trained_at': None}`
built in `main`: a copy of the input metadata with the three keys then set
in order. -/
def exportMetadataOf (metadata : List (String × Json)) (algorithm : String)
    (metrics : List (String × Rat)) : List (String × Json) :=
  dictSet (dictSet (dictSet metadata "algorithm" (.str algorithm))
    "metrics" (metricsToJson metrics)) "trained_at" .null

/-- The observable outcome of one invocation of the script's `main` (after
argument parsing): the process exit status, the trace of performed steps,
the chronological file-write log, and — as instrumentation — the train/test
partition and metrics record once the run computed them. -/
structure RunOutcome where
  exitCode : Nat
  events : List Event
  files : List (String × FileData)
  partition : Option SplitRes
  metricsRec : Option (List (String × Rat))

/-- `main` from `scripts/train.py`, after `argparse`: load the data, read
`task_type` and `feature_names` from the metadata, train and evaluate,
build the export metadata, export, and map any raised exception to exit
status 1 (success to 0).  `ambientRng` models the global NumPy RNG state;
the script never lets it reach the libraries because every `random_state`
is hardcoded to 42. -/
def main_run (o : Oracle) (ambientRng : Nat) (inputJson : Option Json)
    (outputPath : String) (algorithm : String) (testSplit minAccuracy : Rat) :
    RunOutcome :=
  match load_training_data inputJson with
  | .error _ => ⟨1, [], [], none, none⟩
  | .ok (X, y, metadata) =>
    let taskType := taskTypeOf metadata
    let featureNames := featureNamesOf metadata (nCols X)
    let tr := train_and_evaluate o ambientRng X y algorithm taskType testSplit minAccuracy
    match tr.result with
    | .error _ => ⟨1, tr.events, [], tr.partition, tr.metrics⟩
    | .ok (fitted, metrics) =>
      let exportMetadata := exportMetadataOf metadata algorithm metrics
      match export_to_onnx o fitted outputPath featureNames exportMetadata taskType with
      | .error _ => ⟨1, tr.events, [], tr.partition, tr.metrics⟩
      | .ok (evs, files, _art) => ⟨0, tr.events ++ evs, files, tr.partition, tr.metrics⟩

theorem main_run_load_error (o : Oracle) (ambientRng : Nat) (inputJson : Option Json)
    (outputPath algorithm : String) (testSplit minAccuracy : Rat) (e : PyError)
    (hload : load_training_data inputJson = .error e) :
    main_run o ambientRng inputJson outputPath algorithm testSplit minAccuracy =
      ⟨1, [], [], none, none⟩ := by
  unfold main_run
  rw [hload]

theorem main_run_mismatch (o : Oracle) (ambientRng : Nat) (inputJson : Option Json)
    (outputPath algorithm : String) (testSplit minAccuracy : Rat)
    (X : List (List Rat)) (y : List Rat) (md : List (String × Json))
    (hload : load_training_data inputJson = .ok (X, y, md))
    (hlen : X.length ≠ y.length) :
    main_run o ambientRng inputJson outputPath algorithm testSplit minAccuracy =
      ⟨1, [], [], none, none⟩ := by
  unfold main_run
  rw [hload]
  simp only [train_and_evaluate_mismatch o ambientRng X y algorithm (taskTypeOf md)
    testSplit minAccuracy hlen]

theorem main_run_unsupported (o : Oracle) (ambientRng : Nat) (inputJson : Option Json)
    (outputPath algorithm : String) (testSplit minAccuracy : Rat)
    (X : List (List Rat)) (y : List Rat) (md : List (String × Json)) (e : PyError)
    (hload : load_training_data inputJson = .ok (X, y, md))
    (hlen : X.length = y.length)
    (hcm : create_model algorithm (taskTypeOf md) = .error e) :
    main_run o ambientRng inputJson outputPath algorithm testSplit minAccuracy =
      ⟨1, [Event.splitEv], [], some (partitionOf o X y testSplit), none⟩ := by
  unfold main_run
  rw [hload]
  simp only [train_and_evaluate_unsupported o ambientRng X y algorithm (taskTypeOf md)
    testSplit minAccuracy e hlen hcm]

theorem main_run_gate_fail (o : Oracle) (ambientRng : Nat) (inputJson : Option Json)
    (outputPath algorithm : String) (testSplit minAccuracy : Rat)
    (X : List (List Rat)) (y : List Rat) (md : List (String × Json)) (m : SkModel)
    (hload : load_training_data inputJson = .ok (X, y, md))
    (hlen : X.length = y.length)
    (hm : create_model algorithm (taskTypeOf md) = .ok m)
    (hfail : heldOutMetricOf o X y m (taskTypeOf md) testSplit < minAccuracy) :
    main_run o ambientRng inputJson outputPath algorithm testSplit minAccuracy =
      ⟨1, fullTrainTrace, [], some (partitionOf o X y testSplit),
       some (metricsRecordOf o X y m (taskTypeOf md) testSplit)⟩ := by
  unfold main_run
  rw [hload]
  simp only [train_and_evaluate_eq o ambientRng X y algorithm (taskTypeOf md)
    testSplit minAccuracy m hlen hm, if_pos hfail]

theorem main_run_success (o : Oracle) (ambientRng : Nat) (inputJson : Option Json)
    (outputPath algorithm : String) (testSplit minAccuracy : Rat)
    (X : List (List Rat)) (y : List Rat) (md : List (String × Json)) (m : SkModel)
    (nf : Nat)
    (hload : load_training_data inputJson = .ok (X, y, md))
    (hlen : X.length = y.length)
    (hm : create_model algorithm (taskTypeOf md) = .ok m)
    (hpass : ¬ heldOutMetricOf o X y m (taskTypeOf md) testSplit < minAccuracy)
    (hfn : pyLen (featureNamesOf md (nCols X)) = .ok nf) :
    main_run o ambientRng inputJson outputPath algorithm testSplit minAccuracy =
      ⟨0, fullTrainTrace ++ [Event.convertEv, Event.writeModelEv, Event.writeMetadataEv],
       [(outputPath,
         .onnxFile "input" none nf (jsonIsStr (taskTypeOf md) "classification")
           (o.convert m (partitionOf o X y testSplit).XTrain (partitionOf o X y testSplit).yTrain)),
        (metadataPathOf outputPath,
         .jsonFile (exportMetadataOf md algorithm
           (metricsRecordOf o X y m (taskTypeOf md) testSplit)))],
       some (partitionOf o X y testSplit),
       some (metricsRecordOf o X y m (taskTypeOf md) testSplit)⟩ := by
  unfold main_run
  rw [hload]
  simp only [train_and_evaluate_eq o ambientRng X y algorithm (taskTypeOf md)
    testSplit minAccuracy m hlen hm, if_neg hpass]
  unfold export_to_onnx
  rw [hfn]

theorem main_run_ambient_free (o : Oracle) (amb1 amb2 : Nat) (inputJson : Option Json)
    (outputPath algorithm : String) (testSplit minAccuracy : Rat) :
    main_run o amb1 inputJson outputPath algorithm testSplit minAccuracy =
      main_run o amb2 inputJson outputPath algorithm testSplit minAccuracy := by
  unfold main_run
  cases hload : load_training_data inputJson with
  | error e => rfl
  | ok t =>
    obtain ⟨X, y, md⟩ := t
    simp only [train_and_evaluate_ambient_free o amb1 amb2 X y algorithm (taskTypeOf md)
      testSplit minAccuracy]

/-- `true` iff a library call returned normally rather than raising. -/
def exceptOkB {α : Type} : Except PyError α → Bool
  | .ok _ => true
  | .error _ => false

/-- The pattern `'.onnx'` of the sidecar-path substitution, as characters. -/
def onnxPatChars : List Char :=
  ['.', 'o', 'n', 'n', 'x']

theorem containsSub_cons (pat : List Char) (c : Char) (rest : List Char) :
    containsSub pat (c :: rest) = (pat.isPrefixOf (c :: rest) || containsSub pat rest) := by
  rfl

theorem replOnnxChars_of_not_contains (cs : List Char)
    (h : containsSub onnxPatChars cs = false) : replOnnxChars cs = cs := by
  induction cs using replOnnxChars.induct with
  | case1 rest ih =>
    exfalso
    rw [containsSub_cons] at h
    simp only [Bool.or_eq_false_iff] at h
    have hpre : onnxPatChars.isPrefixOf
        ('.' :: 'o' :: 'n' :: 'n' :: 'x' :: rest) = true := by
      simp [onnxPatChars, List.isPrefixOf]
    rw [hpre] at h
    exact Bool.true_eq_false.mp h.1
  | case2 c rest hne ih =>
    rw [containsSub_cons] at h
    simp only [Bool.or_eq_false_iff] at h
    rw [replOnnxChars]
    · rw [ih h.2]
    · exact hne
  | case3 => rfl

theorem metadataPathOf_of_not_contains (p : String)
    (h : containsSub onnxPatChars p.toList = false) : metadataPathOf p = p := by
  unfold metadataPathOf
  rw [replOnnxChars_of_not_contains p.toList h]
  cases p
  rfl

/-- A deterministic stand-in for the external libraries, used to evaluate
the pipeline on concrete inputs: the last fifth convention is irrelevant —
it holds out the first sample as the test set and predicts the constant 0. -/
def constOracle : Oracle where
  split := fun X y _ts _seed => ⟨X.drop 1, X.take 1, y.drop 1, y.take 1⟩
  predict := fun _spec _Xtr _ytr _seed Xte => Xte.map (fun _ => 0)
  convert := fun _ _ _ => 0

/-- A well-formed classification payload on which `constOracle` predicts
every held-out label exactly (labels all 0). -/
def passJson : Json :=
  .obj [("features", .arr [.arr [.num 1], .arr [.num 2], .arr [.num 3],
            .arr [.num 4], .arr [.num 5]]),
        ("labels", .arr [.num 0, .num 0, .num 0, .num 0, .num 0]),
        ("metadata", .obj [("task_type", .str "classification"),
            ("feature_names", .arr [.str "age"])])]

/-- A well-formed classification payload on which `constOracle` misses
every held-out label (labels all 1), so the gate fails at any positive
threshold. -/
def failJson : Json :=
  .obj [("features", .arr [.arr [.num 1], .arr [.num 2], .arr [.num 3],
            .arr [.num 4], .arr [.num 5]]),
        ("labels", .arr [.num 1, .num 1, .num 1, .num 1, .num 1]),
        ("metadata", .obj [("task_type", .str "classification"),
            ("feature_names", .arr [.str "age"])])]

/-- A payload whose `features` has 3 rows but whose `labels` has 2 entries. -/
def mismatchJson : Json :=
  .obj [("features", .arr [.arr [.num 1], .arr [.num 2], .arr [.num 3]]),
        ("labels", .arr [.num 0, .num 1]),
        ("metadata", .obj [("task_type", .str "classification")])]

/-- A payload whose `features` rows have inconsistent lengths. -/
def raggedJson : Json :=
  .obj [("features", .arr [.arr [.num 1], .arr [.num 2, .num 3]]),
        ("labels", .arr [.num 0, .num 1]),
        ("metadata", .obj [])]

/-- A well-formed payload with two feature columns whose metadata omits
`feature_names`. -/
def noNamesJson : Json :=
  .obj [("features", .arr [.arr [.num 1, .num 10], .arr [.num 2, .num 20],
            .arr [.num 3, .num 30]]),
        ("labels", .arr [.num 0, .num 0, .num 0]),
        ("metadata", .obj [("task_type", .str "classification")])]

theorem dictGet_dictSet_self (d : List (String × Json)) (k : String) (v : Json) :
    dictGet (dictSet d k v) k = some v := by
  induction d with
  | nil => simp [dictSet, dictGet, lookupStr]
  | cons p rest ih =>
    cases hp : p.1 == k with
    | true => simp [dictSet, dictGet, lookupStr, hp]
    | false =>
      simp only [dictSet, hp, Bool.false_eq_true, if_false]
      unfold dictGet lookupStr
      rw [if_neg (by simp [hp])]
      exact ih

theorem dictGet_dictSet_ne (d : List (String × Json)) (k k' : String) (v : Json)
    (hne : k' ≠ k) : dictGet (dictSet d k v) k' = dictGet d k' := by
  induction d with
  | nil =>
    simp only [dictSet, dictGet, lookupStr]
    rw [if_neg (by simpa using fun e => hne e.symm)]
  | cons p rest ih =>
    cases hp : p.1 == k with
    | true =>
      have hpk : p.1 = k := by simpa using hp
      simp only [dictSet, hp, if_true]
      unfold dictGet lookupStr
      rw [if_neg (by simpa using fun e => hne e.symm),
          if_neg (by rw [hpk]; simpa using fun e => hne e.symm)]
    | false =>
      simp only [dictSet, hp, Bool.false_eq_true, if_false]
      unfold dictGet lookupStr
      cases hq : p.1 == k' with
      | true => rfl
      | false => exact ih

theorem dictGet_dictSet_isSome (d : List (String × Json)) (k k' : String) (v : Json)
    (h : (dictGet (dictSet d k v) k').isSome) :
    k' = k ∨ (dictGet d k').isSome := by
  by_cases hk : k' = k
  · exact Or.inl hk
  · right
    rw [dictGet_dictSet_ne d k k' v hk] at h
    exact h

/-- C5: `create_model` accepts exactly RandomForest, LogisticRegression and
DecisionTree for classification, exactly RandomForest and DecisionTree for
regression; the (regression, DecisionTree) entry is a classification-flavored
decision tree; and any identifier outside the task type's set fails with an
error enumerating that task type's valid choices. -/
theorem create_model_supported_sets_and_error (algorithm : String) :
    ((∃ m, create_model algorithm (Json.str "classification") = .ok m) ↔
      algorithm ∈ ["RandomForest", "LogisticRegression", "DecisionTree"]) ∧
    ((∃ m, create_model algorithm (Json.str "regression") = .ok m) ↔
      algorithm ∈ ["RandomForest", "DecisionTree"]) ∧
    (create_model "DecisionTree" (Json.str "regression") =
      .ok (.decisionTreeClassifier (some 42) (some 10))) ∧
    (algorithm ∉ ["RandomForest", "LogisticRegression", "DecisionTree"] →
      create_model algorithm (Json.str "classification") =
        .error (.unsupportedAlgorithm algorithm
          ["RandomForest", "LogisticRegression", "DecisionTree"])) ∧
    (algorithm ∉ ["RandomForest", "DecisionTree"] →
      create_model algorithm (Json.str "regression") =
        .error (.unsupportedAlgorithm algorithm ["RandomForest", "DecisionTree"])) := by
  refine ⟨?_, ?_, by rfl, ?_, ?_⟩
  · simpa [supportedAlgorithms, jsonIsStr] using
      create_model_isOk_iff algorithm (Json.str "classification")
  · simpa [supportedAlgorithms, jsonIsStr] using
      create_model_isOk_iff algorithm (Json.str "regression")
  · intro h
    simpa [supportedAlgorithms, jsonIsStr] using
      create_model_notMem_error algorithm (Json.str "classification")
        (by simpa [supportedAlgorithms, jsonIsStr] using h)
  · intro h
    simpa [supportedAlgorithms, jsonIsStr] using
      create_model_notMem_error algorithm (Json.str "regression")
        (by simpa [supportedAlgorithms, jsonIsStr] using h)

theorem create_model_supported_sets_and_error_witness :
    ("GradientBoost" ∉ ["RandomForest", "LogisticRegression", "DecisionTree"]) ∧
    (create_model "GradientBoost" (Json.str "classification") =
      .error (.unsupportedAlgorithm "GradientBoost"
        ["RandomForest", "LogisticRegression", "DecisionTree"])) ∧
    ("GradientBoost" ∉ ["RandomForest", "DecisionTree"]) ∧
    (create_model "GradientBoost" (Json.str "regression") =
      .error (.unsupportedAlgorithm "GradientBoost" ["RandomForest", "DecisionTree"])) :=
  ⟨by decide,
   (create_model_supported_sets_and_error "GradientBoost").2.2.2.1 (by decide),
   by decide,
   (create_model_supported_sets_and_error "GradientBoost").2.2.2.2 (by decide)⟩

/-- C6: for every successful export, regardless of algorithm and task type,
the exported graph's declared input tensor shape is (unbounded batch
dimension, width = length of the feature-name list passed to the exporter). -/
theorem export_input_shape_unbounded_batch_feature_count (o : Oracle)
    (model : FittedModel) (outputPath : String) (names : List Json)
    (metadata : List (String × Json)) (taskType : Json)
    (evs : List Event) (files : List (String × FileData)) (art : OnnxArtifact)
    (hx : export_to_onnx o model outputPath (Json.arr names) metadata taskType =
      .ok (evs, files, art)) :
    art.inputWidth = names.length ∧ art.batchDim = none := by
  simp only [export_to_onnx, pyLen, Except.ok.injEq, Prod.mk.injEq] at hx
  obtain ⟨-, -, ha⟩ := hx
  rw [← ha]
  exact ⟨rfl, rfl⟩

/-- Concrete instance for `export_input_shape_unbounded_batch_feature_count`:
a successful export with a two-name feature list declares input width 2 and
an unbounded batch dimension. -/
theorem export_input_shape_unbounded_batch_feature_count_witness :
    (export_to_onnx constOracle (SkModel.decisionTreeClassifier (some 42) (some 10), [], [])
      "m.onnx" (Json.arr [Json.str "a", Json.str "b"]) [] (Json.str "classification") =
      .ok ([Event.convertEv, Event.writeModelEv, Event.writeMetadataEv],
           [("m.onnx", .onnxFile "input" none 2 true 0),
            ("m.metadata.json", .jsonFile [])],
           ⟨"input", none, 2, true, 0⟩)) ∧
    (OnnxArtifact.inputWidth ⟨"input", none, 2, true, 0⟩ =
      [Json.str "a", Json.str "b"].length ∧
     OnnxArtifact.batchDim ⟨"input", none, 2, true, 0⟩ = none) :=
  ⟨rfl,
   export_input_shape_unbounded_batch_feature_count constOracle
     (SkModel.decisionTreeClassifier (some 42) (some 10), [], []) "m.onnx"
     [Json.str "a", Json.str "b"] [] (Json.str "classification")
     [Event.convertEv, Event.writeModelEv, Event.writeMetadataEv]
     [("m.onnx", .onnxFile "input" none 2 true 0), ("m.metadata.json", .jsonFile [])]
     ⟨"input", none, 2, true, 0⟩ rfl⟩

/-- C8: the pipeline is deterministic: two runs with identical input data,
algorithm, task type (carried by the input metadata), split fraction and
threshold produce identical outcomes — in particular identical train/test
partitions and identical metrics records — whatever the ambient RNG state,
because every splitting and fitting operation uses the fixed seed 42. -/
theorem pipeline_deterministic_fixed_seed (o : Oracle) (amb1 amb2 : Nat)
    (inputJson : Option Json) (outputPath algorithm : String)
    (testSplit minAccuracy : Rat) :
    main_run o amb1 inputJson outputPath algorithm testSplit minAccuracy =
      main_run o amb2 inputJson outputPath algorithm testSplit minAccuracy ∧
    (main_run o amb1 inputJson outputPath algorithm testSplit minAccuracy).partition =
      (main_run o amb2 inputJson outputPath algorithm testSplit minAccuracy).partition ∧
    (main_run o amb1 inputJson outputPath algorithm testSplit minAccuracy).metricsRec =
      (main_run o amb2 inputJson outputPath algorithm testSplit minAccuracy).metricsRec := by
  have h := main_run_ambient_free o amb1 amb2 inputJson outputPath algorithm
    testSplit minAccuracy
  exact ⟨h, by rw [h], by rw [h]⟩

/-- C1: in `train_and_evaluate`, once the stages before the gate succeed,
the quality gate raises an error if and only if the held-out metric is
strictly below the threshold — accuracy for classification, R² for
regression, with MSE present in the metrics record but never compared —
and the gate check is evaluated strictly after the metrics record has been
computed, never before. -/
theorem gate_error_iff_metric_below_threshold (o : Oracle) (ambientRng : Nat)
    (X : List (List Rat)) (y : List Rat) (algorithm : String) (taskType : Json)
    (testSplit minAccuracy : Rat) (m : SkModel)
    (hlen : X.length = y.length)
    (hm : create_model algorithm taskType = .ok m) :
    (train_and_evaluate o ambientRng X y algorithm taskType testSplit minAccuracy).metrics =
      some (metricsRecordOf o X y m taskType testSplit) ∧
    ((∃ e, (train_and_evaluate o ambientRng X y algorithm taskType testSplit
        minAccuracy).result = .error e) ↔
      heldOutMetricOf o X y m taskType testSplit < minAccuracy) ∧
    (heldOutMetricOf o X y m taskType testSplit < minAccuracy →
      (train_and_evaluate o ambientRng X y algorithm taskType testSplit minAccuracy).result =
        .error (.qualityGate (gateMetricName taskType)
          (heldOutMetricOf o X y m taskType testSplit) minAccuracy)) ∧
    (jsonIsStr taskType "regression" = true →
      ∃ mseVal, metricsRecordOf o X y m taskType testSplit =
        [("mse", mseVal), ("r2", heldOutMetricOf o X y m taskType testSplit)]) ∧
    (jsonIsStr taskType "regression" = false →
      metricsRecordOf o X y m taskType testSplit =
        [("accuracy", heldOutMetricOf o X y m taskType testSplit)]) ∧
    Event.computeMetricsEv ∈
      (train_and_evaluate o ambientRng X y algorithm taskType testSplit minAccuracy).events ∧
    Event.gateCheckEv ∈
      (train_and_evaluate o ambientRng X y algorithm taskType testSplit minAccuracy).events ∧
    gateOnlyAfterMetrics
      (train_and_evaluate o ambientRng X y algorithm taskType testSplit minAccuracy).events =
      true := by
  rw [train_and_evaluate_eq o ambientRng X y algorithm taskType testSplit minAccuracy m
    hlen hm]
  refine ⟨rfl, ?_, ?_, ?_, ?_,
    by show Event.computeMetricsEv ∈ fullTrainTrace; decide,
    by show Event.gateCheckEv ∈ fullTrainTrace; decide,
    by show gateOnlyAfterMetrics fullTrainTrace = true; decide⟩
  · by_cases hlt : heldOutMetricOf o X y m taskType testSplit < minAccuracy
    · simp only [if_pos hlt]
      exact ⟨fun _ => hlt, fun _ => ⟨_, rfl⟩⟩
    · simp only [if_neg hlt]
      constructor
      · rintro ⟨e, he⟩
        exact absurd he (by simp)
      · exact fun h => absurd h hlt
  · intro hlt
    simp only [if_pos hlt]
  · intro hreg
    unfold metricsRecordOf heldOutMetricOf
    rw [hreg]
    simp only [if_true]
    exact ⟨_, rfl⟩
  · intro hreg
    unfold metricsRecordOf heldOutMetricOf
    rw [hreg]
    simp only [Bool.false_eq_true, if_false]

/-- Concrete instance for `gate_error_iff_metric_below_threshold`: a
five-sample classification run under `constOracle` where the held-out
accuracy is 1, so no error is raised at threshold 7/10. -/
theorem gate_error_iff_metric_below_threshold_witness :
    (([[(1 : Rat)], [2], [3], [4], [5]] : List (List Rat)).length =
      ([0, 0, 0, 0, 0] : List Rat).length) ∧
    (create_model "RandomForest" (Json.str "classification") =
      .ok (.randomForestClassifier 100 (some 42) (some 10))) ∧
    (((∃ e, (train_and_evaluate constOracle 0 [[(1 : Rat)], [2], [3], [4], [5]]
        [0, 0, 0, 0, 0] "RandomForest" (Json.str "classification") (1/5) (7/10)).result =
        .error e) ↔
      heldOutMetricOf constOracle [[(1 : Rat)], [2], [3], [4], [5]] [0, 0, 0, 0, 0]
        (.randomForestClassifier 100 (some 42) (some 10)) (Json.str "classification") (1/5) <
        7/10) ∧
     gateOnlyAfterMetrics
       (train_and_evaluate constOracle 0 [[(1 : Rat)], [2], [3], [4], [5]] [0, 0, 0, 0, 0]
         "RandomForest" (Json.str "classification") (1/5) (7/10)).events = true) := by
  refine ⟨rfl, rfl, ?_, ?_⟩
  · exact (gate_error_iff_metric_below_threshold constOracle 0
      [[(1 : Rat)], [2], [3], [4], [5]] [0, 0, 0, 0, 0] "RandomForest"
      (Json.str "classification") (1/5) (7/10)
      (.randomForestClassifier 100 (some 42) (some 10)) rfl rfl).2.1
  · exact (gate_error_iff_metric_below_threshold constOracle 0
      [[(1 : Rat)], [2], [3], [4], [5]] [0, 0, 0, 0, 0] "RandomForest"
      (Json.str "classification") (1/5) (7/10)
      (.randomForestClassifier 100 (some 42) (some 10)) rfl rfl).2.2.2.2.2.2.2

/-- C2: every run whose held-out metric is strictly below the threshold
terminates with exit status 1 and writes no file at all — the gate fires
before `convert_sklearn` is invoked and before either write happens. -/
theorem gate_failure_exits_nonzero_writes_nothing (o : Oracle) (ambientRng : Nat)
    (inputJson : Option Json) (outputPath algorithm : String)
    (testSplit minAccuracy : Rat)
    (X : List (List Rat)) (y : List Rat) (md : List (String × Json)) (m : SkModel)
    (hload : load_training_data inputJson = .ok (X, y, md))
    (hlen : X.length = y.length)
    (hm : create_model algorithm (taskTypeOf md) = .ok m)
    (hfail : heldOutMetricOf o X y m (taskTypeOf md) testSplit < minAccuracy) :
    (main_run o ambientRng inputJson outputPath algorithm testSplit minAccuracy).exitCode =
      1 ∧
    (main_run o ambientRng inputJson outputPath algorithm testSplit minAccuracy).files =
      [] ∧
    Event.convertEv ∉
      (main_run o ambientRng inputJson outputPath algorithm testSplit minAccuracy).events ∧
    Event.writeModelEv ∉
      (main_run o ambientRng inputJson outputPath algorithm testSplit minAccuracy).events ∧
    Event.writeMetadataEv ∉
      (main_run o ambientRng inputJson outputPath algorithm testSplit minAccuracy).events := by
  rw [main_run_gate_fail o ambientRng inputJson outputPath algorithm testSplit minAccuracy
    X y md m hload hlen hm hfail]
  refine ⟨rfl, rfl,
    by show Event.convertEv ∉ fullTrainTrace; decide,
    by show Event.writeModelEv ∉ fullTrainTrace; decide,
    by show Event.writeMetadataEv ∉ fullTrainTrace; decide⟩

/-- Concrete instance for `gate_failure_exits_nonzero_writes_nothing`: under
`constOracle` the held-out accuracy on `failJson` is 0 < 7/10, and the run
exits with status 1 having written nothing. -/
theorem gate_failure_exits_nonzero_writes_nothing_witness :
    (load_training_data (some failJson) =
      .ok ([[(1 : Rat)], [2], [3], [4], [5]], [1, 1, 1, 1, 1],
           [("task_type", Json.str "classification"),
            ("feature_names", Json.arr [Json.str "age"])])) ∧
    (heldOutMetricOf constOracle [[(1 : Rat)], [2], [3], [4], [5]] [1, 1, 1, 1, 1]
      (.randomForestClassifier 100 (some 42) (some 10))
      (taskTypeOf [("task_type", Json.str "classification"),
        ("feature_names", Json.arr [Json.str "age"])]) (1/5) < 7/10) ∧
    ((main_run constOracle 0 (some failJson) "model.onnx" "RandomForest" (1/5)
        (7/10)).exitCode = 1 ∧
     (main_run constOracle 0 (some failJson) "model.onnx" "RandomForest" (1/5)
        (7/10)).files = []) := by
  refine ⟨rfl, by decide, ?_, ?_⟩
  · exact (gate_failure_exits_nonzero_writes_nothing constOracle 0 (some failJson)
      "model.onnx" "RandomForest" (1/5) (7/10) [[(1 : Rat)], [2], [3], [4], [5]]
      [1, 1, 1, 1, 1]
      [("task_type", Json.str "classification"), ("feature_names", Json.arr [Json.str "age"])]
      (.randomForestClassifier 100 (some 42) (some 10)) rfl rfl rfl (by decide)).1
  · exact (gate_failure_exits_nonzero_writes_nothing constOracle 0 (some failJson)
      "model.onnx" "RandomForest" (1/5) (7/10) [[(1 : Rat)], [2], [3], [4], [5]]
      [1, 1, 1, 1, 1]
      [("task_type", Json.str "classification"), ("feature_names", Json.arr [Json.str "age"])]
      (.randomForestClassifier 100 (some 42) (some 10)) rfl rfl rfl (by decide)).2.1

/-- C3 counterexample: a run requesting the unsupported algorithm
`GradientBoost` exits with status 1, but its trace contains a performed
train/test split — contradicting "fails before any train/test split is
performed". -/
theorem unsupported_algorithm_split_already_performed :
    (main_run constOracle 0 (some passJson) "model.onnx" "GradientBoost" (1/5)
      (7/10)).exitCode = 1 ∧
    Event.splitEv ∈ (main_run constOracle 0 (some passJson) "model.onnx"
      "GradientBoost" (1/5) (7/10)).events ∧
    (main_run constOracle 0 (some passJson) "model.onnx" "GradientBoost" (1/5)
      (7/10)).partition =
      some ⟨[[2], [3], [4], [5]], [[1]], [0, 0, 0, 0], [0]⟩ := by
  refine ⟨by decide, by decide, by decide⟩

/-- C3 (amended): a run requesting an algorithm absent from the supported
set of the run's task type fails with exit status 1, without fitting any
model and without writing any file; the train/test split, however, is
performed first — the failure occurs immediately after it. -/
theorem unsupported_algorithm_fails_before_fit_after_split (o : Oracle)
    (ambientRng : Nat) (inputJson : Option Json) (outputPath algorithm : String)
    (testSplit minAccuracy : Rat)
    (X : List (List Rat)) (y : List Rat) (md : List (String × Json))
    (hload : load_training_data inputJson = .ok (X, y, md))
    (hlen : X.length = y.length)
    (halg : algorithm ∉ supportedAlgorithms (taskTypeOf md)) :
    (main_run o ambientRng inputJson outputPath algorithm testSplit minAccuracy).exitCode =
      1 ∧
    (main_run o ambientRng inputJson outputPath algorithm testSplit minAccuracy).files =
      [] ∧
    Event.fitEv ∉
      (main_run o ambientRng inputJson outputPath algorithm testSplit minAccuracy).events ∧
    Event.splitEv ∈
      (main_run o ambientRng inputJson outputPath algorithm testSplit minAccuracy).events := by
  have hcm := create_model_notMem_error algorithm (taskTypeOf md) halg
  rw [main_run_unsupported o ambientRng inputJson outputPath algorithm testSplit
    minAccuracy X y md _ hload hlen hcm]
  refine ⟨rfl, rfl,
    by show Event.fitEv ∉ [Event.splitEv]; decide,
    by show Event.splitEv ∈ [Event.splitEv]; decide⟩

/-- Concrete instance for `unsupported_algorithm_fails_before_fit_after_split`
at algorithm `GradientBoost` on `passJson`. -/
theorem unsupported_algorithm_fails_before_fit_after_split_witness :
    (load_training_data (some passJson) =
      .ok ([[(1 : Rat)], [2], [3], [4], [5]], [0, 0, 0, 0, 0],
           [("task_type", Json.str "classification"),
            ("feature_names", Json.arr [Json.str "age"])])) ∧
    ("GradientBoost" ∉ supportedAlgorithms (taskTypeOf
      [("task_type", Json.str "classification"),
       ("feature_names", Json.arr [Json.str "age"])])) ∧
    ((main_run constOracle 0 (some passJson) "out.onnx" "GradientBoost" (1/5)
        (7/10)).exitCode = 1 ∧
     Event.fitEv ∉ (main_run constOracle 0 (some passJson) "out.onnx" "GradientBoost"
        (1/5) (7/10)).events) := by
  refine ⟨rfl, by decide, ?_, ?_⟩
  · exact (unsupported_algorithm_fails_before_fit_after_split constOracle 0
      (some passJson) "out.onnx" "GradientBoost" (1/5) (7/10)
      [[(1 : Rat)], [2], [3], [4], [5]] [0, 0, 0, 0, 0]
      [("task_type", Json.str "classification"), ("feature_names", Json.arr [Json.str "age"])]
      rfl rfl (by decide)).1
  · exact (unsupported_algorithm_fails_before_fit_after_split constOracle 0
      (some passJson) "out.onnx" "GradientBoost" (1/5) (7/10)
      [[(1 : Rat)], [2], [3], [4], [5]] [0, 0, 0, 0, 0]
      [("task_type", Json.str "classification"), ("feature_names", Json.arr [Json.str "age"])]
      rfl rfl (by decide)).2.2.1

theorem exceptBind_ok {α β : Type} (a : α) (f : α → Except PyError β) :
    (Except.ok a >>= f) = f a :=
  rfl

theorem exceptBind_err {α β : Type} (e : PyError) (f : α → Except PyError β) :
    ((Except.error e : Except PyError α) >>= f) = .error e :=
  rfl

/-- C4 counterexample: `load_training_data` does not fail when `features`
has 3 rows while `labels` has 2 entries — the load succeeds, refuting
"fails … whenever the length of `features` differs from the length of
`labels`". -/
theorem load_accepts_feature_label_length_mismatch :
    exceptOkB (load_training_data (some mismatchJson)) = true ∧
    load_training_data (some mismatchJson) =
      .ok ([[(1 : Rat)], [2], [3]], [0, 1], [("task_type", Json.str "classification")]) ∧
    ([[(1 : Rat)], [2], [3]] : List (List Rat)).length ≠ ([0, 1] : List Rat).length := by
  refine ⟨by decide, by rfl, by decide⟩

/-- C4 (amended): `load_training_data` fails when the file is not parseable
JSON and when the `features` rows have inconsistent lengths (both failures
in the spec's MalformedInputError class); a `features`/`labels` length
mismatch, however, is not detected at load time — it surfaces later, when
`train_and_evaluate`'s split raises the inconsistent-samples error. -/
theorem load_failure_modes :
    (load_training_data none = .error .jsonDecodeError) ∧
    (∀ (data : Json) (xs : List Json) (rows : List (List Rat)),
      pyGetItem data "features" = .ok (.arr xs) →
      xs.mapM asNum = none →
      xs.mapM asNumList = some rows →
      uniformRows rows = false →
      load_training_data (some data) = .error .raggedArrayError) ∧
    (∀ (o : Oracle) (ambientRng : Nat) (X : List (List Rat)) (y : List Rat)
        (algorithm : String) (taskType : Json) (testSplit minAccuracy : Rat),
      X.length ≠ y.length →
      (train_and_evaluate o ambientRng X y algorithm taskType testSplit
        minAccuracy).result = .error (.inconsistentSamplesError X.length y.length)) ∧
    (PyError.isMalformedInput .jsonDecodeError = true) ∧
    (PyError.isMalformedInput .raggedArrayError = true) ∧
    (∀ nx ny, PyError.isMalformedInput (.inconsistentSamplesError nx ny) = true) := by
  refine ⟨rfl, ?_, ?_, rfl, rfl, fun nx ny => rfl⟩
  · intro data xs rows hget hnum hrows huni
    have hX : npArrayF32 (Json.arr xs) = .error .raggedArrayError := by
      simp only [npArrayF32, hnum, hrows, huni, Bool.false_eq_true, if_false]
    simp only [load_training_data]
    rw [hget]
    simp only [exceptBind_ok, hX, exceptBind_err]
  · intro o ambientRng X y algorithm taskType testSplit minAccuracy hlen
    rw [train_and_evaluate_mismatch o ambientRng X y algorithm taskType testSplit
      minAccuracy hlen]

/-- Concrete instance for `load_failure_modes`: the ragged payload
`raggedJson` is rejected and a 3-vs-2 length mismatch surfaces at the
split. -/
theorem load_failure_modes_witness :
    (pyGetItem raggedJson "features" =
      .ok (.arr [Json.arr [Json.num 1], Json.arr [Json.num 2, Json.num 3]])) ∧
    ([Json.arr [Json.num 1], Json.arr [Json.num 2, Json.num 3]].mapM asNum = none) ∧
    ([Json.arr [Json.num 1], Json.arr [Json.num 2, Json.num 3]].mapM asNumList =
      some [[1], [2, 3]]) ∧
    (uniformRows [[1], [2, 3]] = false) ∧
    (load_training_data (some raggedJson) = .error .raggedArrayError) ∧
    (([[(1 : Rat)], [2], [3]] : List (List Rat)).length ≠ ([0, 1] : List Rat).length) ∧
    ((train_and_evaluate constOracle 0 [[(1 : Rat)], [2], [3]] [0, 1] "RandomForest"
      (Json.str "classification") (1/5) (7/10)).result =
      .error (.inconsistentSamplesError 3 2)) := by
  refine ⟨by rfl, by rfl, by rfl, by decide, ?_, by decide, ?_⟩
  · exact load_failure_modes.2.1 raggedJson
      [Json.arr [Json.num 1], Json.arr [Json.num 2, Json.num 3]] [[1], [2, 3]]
      rfl rfl rfl (by decide)
  · exact load_failure_modes.2.2.1 constOracle 0 [[(1 : Rat)], [2], [3]] [0, 1]
      "RandomForest" (Json.str "classification") (1/5) (7/10) (by decide)

/-- Strip the shortest suffix starting at the last dot, if any dot exists. -/
def stripLastExt : List Char → Option (List Char)
  | [] => none
  | c :: rest =>
    match stripLastExt rest with
    | some t => some (c :: t)
    | none => if c = '.' then some [] else none

/-- Modelled from the spec: the path "obtained from the model output path by
replacing its extension" — the final dot-suffix removed and
`.metadata.json` appended.  This is the refinement target C7 states, to be
compared with `metadataPathOf`, the substitution the source performs. -/
def specExtensionReplacedPath (p : String) : String :=
  String.mk ((stripLastExt p.toList).getD p.toList ++ String.toList ".metadata.json")

/-- The contents a path holds after the run's writes: the last write wins. -/
def lastWrite (files : List (String × FileData)) (p : String) : Option FileData :=
  ((files.filter (fun q => q.1 == p)).map Prod.snd).getLast?

/-- C7 counterexample: a successful run with output path `model.bin` writes
the sidecar at `model.bin` itself — not at the extension-replaced path
`model.metadata.json` — refuting "written at the path obtained from the
model output path by replacing its extension". -/
theorem metadata_path_not_extension_replacement :
    (main_run constOracle 0 (some passJson) "model.bin" "RandomForest" (1/5)
      (7/10)).exitCode = 0 ∧
    (main_run constOracle 0 (some passJson) "model.bin" "RandomForest" (1/5)
      (7/10)).files.map Prod.fst = ["model.bin", "model.bin"] ∧
    specExtensionReplacedPath "model.bin" = "model.metadata.json" ∧
    ("model.bin" : String) ≠ "model.metadata.json" := by
  refine ⟨by decide, by decide, by rfl, by decide⟩

/-- C7 (amended): on every successful run the sidecar metadata written to
disk is the input metadata extended with the three fields `algorithm`,
`metrics` and `trained_at` (set to the algorithm used, the computed metrics
record, and null; a like-named input field is overwritten, every other
input field is preserved, and no further key is introduced), and it is
written at the path obtained from the output path by replacing every
occurrence of the substring `.onnx` with `.metadata.json` — which agrees
with extension replacement only for paths ending in a single `.onnx`. -/
theorem sidecar_metadata_content_and_path (o : Oracle) (ambientRng : Nat)
    (inputJson : Option Json) (outputPath algorithm : String)
    (testSplit minAccuracy : Rat)
    (X : List (List Rat)) (y : List Rat) (md : List (String × Json)) (m : SkModel)
    (nf : Nat)
    (hload : load_training_data inputJson = .ok (X, y, md))
    (hlen : X.length = y.length)
    (hm : create_model algorithm (taskTypeOf md) = .ok m)
    (hpass : ¬ heldOutMetricOf o X y m (taskTypeOf md) testSplit < minAccuracy)
    (hfn : pyLen (featureNamesOf md (nCols X)) = .ok nf) :
    (main_run o ambientRng inputJson outputPath algorithm testSplit minAccuracy).exitCode =
      0 ∧
    (main_run o ambientRng inputJson outputPath algorithm testSplit minAccuracy).files =
      [(outputPath,
        .onnxFile "input" none nf (jsonIsStr (taskTypeOf md) "classification")
          (o.convert m (partitionOf o X y testSplit).XTrain
            (partitionOf o X y testSplit).yTrain)),
       (metadataPathOf outputPath,
        .jsonFile (exportMetadataOf md algorithm
          (metricsRecordOf o X y m (taskTypeOf md) testSplit)))] ∧
    dictGet (exportMetadataOf md algorithm
        (metricsRecordOf o X y m (taskTypeOf md) testSplit)) "algorithm" =
      some (.str algorithm) ∧
    dictGet (exportMetadataOf md algorithm
        (metricsRecordOf o X y m (taskTypeOf md) testSplit)) "metrics" =
      some (metricsToJson (metricsRecordOf o X y m (taskTypeOf md) testSplit)) ∧
    dictGet (exportMetadataOf md algorithm
        (metricsRecordOf o X y m (taskTypeOf md) testSplit)) "trained_at" =
      some .null ∧
    (∀ k, k ≠ "algorithm" → k ≠ "metrics" → k ≠ "trained_at" →
      dictGet (exportMetadataOf md algorithm
        (metricsRecordOf o X y m (taskTypeOf md) testSplit)) k = dictGet md k) ∧
    (∀ k, (dictGet (exportMetadataOf md algorithm
        (metricsRecordOf o X y m (taskTypeOf md) testSplit)) k).isSome →
      k = "algorithm" ∨ k = "metrics" ∨ k = "trained_at" ∨ (dictGet md k).isSome) := by
  refine ⟨?_, ?_, ?_, ?_, ?_, ?_, ?_⟩
  · rw [main_run_success o ambientRng inputJson outputPath algorithm testSplit minAccuracy
      X y md m nf hload hlen hm hpass hfn]
  · rw [main_run_success o ambientRng inputJson outputPath algorithm testSplit minAccuracy
      X y md m nf hload hlen hm hpass hfn]
  · unfold exportMetadataOf
    rw [dictGet_dictSet_ne _ _ _ _ (by decide), dictGet_dictSet_ne _ _ _ _ (by decide),
        dictGet_dictSet_self]
  · unfold exportMetadataOf
    rw [dictGet_dictSet_ne _ _ _ _ (by decide), dictGet_dictSet_self]
  · unfold exportMetadataOf
    rw [dictGet_dictSet_self]
  · intro k hka hkm hkt
    unfold exportMetadataOf
    rw [dictGet_dictSet_ne _ _ _ _ hkt, dictGet_dictSet_ne _ _ _ _ hkm,
        dictGet_dictSet_ne _ _ _ _ hka]
  · intro k hk
    unfold exportMetadataOf at hk
    rcases dictGet_dictSet_isSome _ _ _ _ hk with h1 | hk
    · exact Or.inr (Or.inr (Or.inl h1))
    rcases dictGet_dictSet_isSome _ _ _ _ hk with h2 | hk
    · exact Or.inr (Or.inl h2)
    rcases dictGet_dictSet_isSome _ _ _ _ hk with h3 | hk
    · exact Or.inl h3
    · exact Or.inr (Or.inr (Or.inr hk))

/-- Concrete instance for `sidecar_metadata_content_and_path`: a successful
run of `passJson` with output `model.onnx` exits 0 and its sidecar record
holds the algorithm, the metrics and a null `trained_at`. -/
theorem sidecar_metadata_content_and_path_witness :
    (load_training_data (some passJson) =
      .ok ([[(1 : Rat)], [2], [3], [4], [5]], [0, 0, 0, 0, 0],
           [("task_type", Json.str "classification"),
            ("feature_names", Json.arr [Json.str "age"])])) ∧
    (¬ heldOutMetricOf constOracle [[(1 : Rat)], [2], [3], [4], [5]] [0, 0, 0, 0, 0]
      (.randomForestClassifier 100 (some 42) (some 10))
      (taskTypeOf [("task_type", Json.str "classification"),
        ("feature_names", Json.arr [Json.str "age"])]) (1/5) < 7/10) ∧
    ((main_run constOracle 0 (some passJson) "model.onnx" "RandomForest" (1/5)
        (7/10)).exitCode = 0 ∧
     dictGet (exportMetadataOf
        [("task_type", Json.str "classification"),
         ("feature_names", Json.arr [Json.str "age"])] "RandomForest"
        (metricsRecordOf constOracle [[(1 : Rat)], [2], [3], [4], [5]] [0, 0, 0, 0, 0]
          (.randomForestClassifier 100 (some 42) (some 10))
          (taskTypeOf [("task_type", Json.str "classification"),
            ("feature_names", Json.arr [Json.str "age"])]) (1/5))) "trained_at" =
       some .null) := by
  refine ⟨rfl, by decide, ?_, ?_⟩
  · exact (sidecar_metadata_content_and_path constOracle 0 (some passJson) "model.onnx"
      "RandomForest" (1/5) (7/10) [[(1 : Rat)], [2], [3], [4], [5]] [0, 0, 0, 0, 0]
      [("task_type", Json.str "classification"), ("feature_names", Json.arr [Json.str "age"])]
      (.randomForestClassifier 100 (some 42) (some 10)) 1 rfl rfl rfl (by decide) rfl).1
  · exact (sidecar_metadata_content_and_path constOracle 0 (some passJson) "model.onnx"
      "RandomForest" (1/5) (7/10) [[(1 : Rat)], [2], [3], [4], [5]] [0, 0, 0, 0, 0]
      [("task_type", Json.str "classification"), ("feature_names", Json.arr [Json.str "age"])]
      (.randomForestClassifier 100 (some 42) (some 10)) 1 rfl rfl rfl (by decide)
      rfl).2.2.2.2.1

/-- C9: the sidecar path is derived by replacing the substring `.onnx`
everywhere it occurs, not by replacing the final extension: for every
output path that does not contain `.onnx`, the derived metadata path
equals the model path itself, so on a successful export the sidecar write
— which follows the model write — targets the very same path and its
content is what the path finally holds, overwriting the binary model file
just written. -/
theorem metadata_path_substring_replacement_overwrites_model (o : Oracle)
    (model : FittedModel) (outputPath : String) (featureNames : Json)
    (metadata : List (String × Json)) (taskType : Json)
    (evs : List Event) (files : List (String × FileData)) (art : OnnxArtifact)
    (hno : containsSub onnxPatChars outputPath.toList = false)
    (hx : export_to_onnx o model outputPath featureNames metadata taskType =
      .ok (evs, files, art)) :
    metadataPathOf outputPath = outputPath ∧
    files.map Prod.fst = [outputPath, outputPath] ∧
    lastWrite files outputPath = some (.jsonFile metadata) ∧
    evs = [Event.convertEv, Event.writeModelEv, Event.writeMetadataEv] := by
  have hmeta := metadataPathOf_of_not_contains outputPath hno
  cases hfn : pyLen featureNames with
  | error e =>
    simp only [export_to_onnx, hfn] at hx
    exact absurd hx (by simp)
  | ok nf =>
    simp only [export_to_onnx, hfn, Except.ok.injEq, Prod.mk.injEq] at hx
    obtain ⟨hevs, hfiles, -⟩ := hx
    rw [hmeta] at hfiles
    refine ⟨hmeta, ?_, ?_, hevs.symm⟩
    · rw [← hfiles]
      rfl
    · rw [← hfiles]
      unfold lastWrite
      simp [List.filter]

/-- Concrete instance for
`metadata_path_substring_replacement_overwrites_model` at output path
`model.bin`. -/
theorem metadata_path_substring_replacement_overwrites_model_witness :
    (containsSub onnxPatChars (String.toList "model.bin") = false) ∧
    (export_to_onnx constOracle (SkModel.decisionTreeClassifier (some 42) (some 10), [], [])
      "model.bin" (Json.arr [Json.str "a"]) [("k", Json.num 3)] (Json.str "classification") =
      .ok ([Event.convertEv, Event.writeModelEv, Event.writeMetadataEv],
           [("model.bin", .onnxFile "input" none 1 true 0),
            ("model.bin", .jsonFile [("k", Json.num 3)])],
           ⟨"input", none, 1, true, 0⟩)) ∧
    (metadataPathOf "model.bin" = "model.bin" ∧
     lastWrite [("model.bin", .onnxFile "input" none 1 true 0),
                ("model.bin", .jsonFile [("k", Json.num 3)])] "model.bin" =
       some (.jsonFile [("k", Json.num 3)])) := by
  refine ⟨by decide, by rfl, ?_, ?_⟩
  · exact (metadata_path_substring_replacement_overwrites_model constOracle
      (SkModel.decisionTreeClassifier (some 42) (some 10), [], []) "model.bin"
      (Json.arr [Json.str "a"]) [("k", Json.num 3)] (Json.str "classification")
      [Event.convertEv, Event.writeModelEv, Event.writeMetadataEv]
      [("model.bin", .onnxFile "input" none 1 true 0),
       ("model.bin", .jsonFile [("k", Json.num 3)])]
      ⟨"input", none, 1, true, 0⟩ (by decide) rfl).1
  · exact (metadata_path_substring_replacement_overwrites_model constOracle
      (SkModel.decisionTreeClassifier (some 42) (some 10), [], []) "model.bin"
      (Json.arr [Json.str "a"]) [("k", Json.num 3)] (Json.str "classification")
      [Event.convertEv, Event.writeModelEv, Event.writeMetadataEv]
      [("model.bin", .onnxFile "input" none 1 true 0),
       ("model.bin", .jsonFile [("k", Json.num 3)])]
      ⟨"input", none, 1, true, 0⟩ (by decide) rfl).2.2.1

/-- C10: when the input metadata omits `feature_names`, the driver
substitutes the generated names `f0`…`f(n-1)` where `n` is the loaded
feature matrix's column count, so a successful run's exported artifact
declares input width `n`. -/
theorem default_feature_names_width_matches_columns (o : Oracle) (ambientRng : Nat)
    (inputJson : Option Json) (outputPath algorithm : String)
    (testSplit minAccuracy : Rat)
    (X : List (List Rat)) (y : List Rat) (md : List (String × Json)) (m : SkModel)
    (hload : load_training_data inputJson = .ok (X, y, md))
    (hnames : dictGet md "feature_names" = none)
    (hlen : X.length = y.length)
    (hm : create_model algorithm (taskTypeOf md) = .ok m)
    (hpass : ¬ heldOutMetricOf o X y m (taskTypeOf md) testSplit < minAccuracy) :
    featureNamesOf md (nCols X) = Json.arr (defaultFeatureNames (nCols X)) ∧
    defaultFeatureNames (nCols X) =
      (List.range (nCols X)).map (fun i => Json.str ("f" ++ toString i)) ∧
    pyLen (featureNamesOf md (nCols X)) = .ok (nCols X) ∧
    (main_run o ambientRng inputJson outputPath algorithm testSplit minAccuracy).exitCode =
      0 ∧
    (main_run o ambientRng inputJson outputPath algorithm testSplit minAccuracy).files =
      [(outputPath,
        .onnxFile "input" none (nCols X) (jsonIsStr (taskTypeOf md) "classification")
          (o.convert m (partitionOf o X y testSplit).XTrain
            (partitionOf o X y testSplit).yTrain)),
       (metadataPathOf outputPath,
        .jsonFile (exportMetadataOf md algorithm
          (metricsRecordOf o X y m (taskTypeOf md) testSplit)))] := by
  have hdefault : featureNamesOf md (nCols X) = Json.arr (defaultFeatureNames (nCols X)) := by
    unfold featureNamesOf dictGetD
    rw [hnames]
    rfl
  have hfn : pyLen (featureNamesOf md (nCols X)) = .ok (nCols X) := by
    rw [hdefault]
    simp [pyLen, defaultFeatureNames]
  refine ⟨hdefault, rfl, hfn, ?_, ?_⟩
  · rw [main_run_success o ambientRng inputJson outputPath algorithm testSplit minAccuracy
      X y md m (nCols X) hload hlen hm hpass hfn]
  · rw [main_run_success o ambientRng inputJson outputPath algorithm testSplit minAccuracy
      X y md m (nCols X) hload hlen hm hpass hfn]

/-- Concrete instance for `default_feature_names_width_matches_columns`:
`noNamesJson` has two feature columns and no `feature_names`, and the
successful run declares input width 2. -/
theorem default_feature_names_width_matches_columns_witness :
    (load_training_data (some noNamesJson) =
      .ok ([[(1 : Rat), 10], [2, 20], [3, 30]], [0, 0, 0],
           [("task_type", Json.str "classification")])) ∧
    (dictGet [("task_type", Json.str "classification")] "feature_names" = none) ∧
    (¬ heldOutMetricOf constOracle [[(1 : Rat), 10], [2, 20], [3, 30]] [0, 0, 0]
      (.randomForestClassifier 100 (some 42) (some 10))
      (taskTypeOf [("task_type", Json.str "classification")]) (1/5) < 7/10) ∧
    (pyLen (featureNamesOf [("task_type", Json.str "classification")]
      (nCols [[(1 : Rat), 10], [2, 20], [3, 30]])) = .ok 2 ∧
     (main_run constOracle 0 (some noNamesJson) "m.onnx" "RandomForest" (1/5)
       (7/10)).exitCode = 0) := by
  refine ⟨rfl, rfl, by decide, ?_, ?_⟩
  · exact (default_feature_names_width_matches_columns constOracle 0 (some noNamesJson)
      "m.onnx" "RandomForest" (1/5) (7/10) [[(1 : Rat), 10], [2, 20], [3, 30]] [0, 0, 0]
      [("task_type", Json.str "classification")]
      (.randomForestClassifier 100 (some 42) (some 10)) rfl rfl rfl rfl
      (by decide)).2.2.1
  · exact (default_feature_names_width_matches_columns constOracle 0 (some noNamesJson)
      "m.onnx" "RandomForest" (1/5) (7/10) [[(1 : Rat), 10], [2, 20], [3, 30]] [0, 0, 0]
      [("task_type", Json.str "classification")]
      (.randomForestClassifier 100 (some 42) (some 10)) rfl rfl rfl rfl
      (by decide)).2.2.2.1

end PrisML
